import Mathlib

/-!
Verification of the mini-dropbox-gui signaling core: a shallow embedding of
the protocol codec (src/mini-dropbox-gui/src/message.rs), the session state
machine and event handling (src/mini-dropbox-gui/src/main.rs,
src/mini-dropbox-gui/src/state.rs, src/mini-dropbox-gui/src/events.rs), and
the bounded outbound command queue.
-/

/-- A structural JSON value, the target of serde_json serialization.
Objects are ordered association lists, as produced by serde. -/
inductive Json where
  | null : Json
  | bool (b : Bool) : Json
  | num (n : Int) : Json
  | str (s : String) : Json
  | arr (elems : List Json) : Json
  | obj (fields : List (String × Json)) : Json

/-- The protocol message vocabulary.  The variants `register`,
`disconnectUser`, `registerSuccess` and `errorDeserializingJson` are declared
in src/mini-dropbox-gui/src/message.rs.  Modelled from the spec: the
remaining variants (`getActiveUsersList`, `activeUsersList`, `sendFile`,
`receiveFile`, `prepareFile`) are absent from the given message.rs but are
constructed and matched on throughout main.rs; their payload types are taken
from those call sites and from the section-6 wire table of the spec.  The
serde attributes on the enum are adjacently tagged encoding with
tag = "type", content = "payload", and snake_case variant names. -/
inductive WebSocketMessage where
  | register (nickname : String) : WebSocketMessage
  | disconnectUser (nickname : String) : WebSocketMessage
  | registerSuccess : WebSocketMessage
  | errorDeserializingJson (e : String) : WebSocketMessage
  | getActiveUsersList (nickname : String) : WebSocketMessage
  | activeUsersList (users : List String) : WebSocketMessage
  | sendFile (ticket : String) : WebSocketMessage
  | receiveFile (ticket : String) : WebSocketMessage
  | prepareFile (absPath : String) : WebSocketMessage
deriving DecidableEq

namespace WebSocketMessage

/-- Serialization of a message to a JSON value, following serde's adjacently
tagged representation for the enum in message.rs: an object with a "type"
field naming the snake_case variant and, for non-unit variants, a "payload"
field carrying the variant data (struct variants as objects, newtype
variants as their value).  This is the semantics of the derived Serialize
used by the missing to_json helper called from main.rs. -/
def encode : WebSocketMessage → Json
  | .register nickname =>
      .obj [("type", .str "register"),
            ("payload", .obj [("nickname", .str nickname)])]
  | .disconnectUser nickname =>
      .obj [("type", .str "disconnect_user"), ("payload", .str nickname)]
  | .registerSuccess =>
      .obj [("type", .str "register_success")]
  | .errorDeserializingJson e =>
      .obj [("type", .str "error_deserializing_json"), ("payload", .str e)]
  | .getActiveUsersList nickname =>
      .obj [("type", .str "get_active_users_list"), ("payload", .str nickname)]
  | .activeUsersList users =>
      .obj [("type", .str "active_users_list"),
            ("payload", .arr (users.map Json.str))]
  | .sendFile ticket =>
      .obj [("type", .str "send_file"), ("payload", .str ticket)]
  | .receiveFile ticket =>
      .obj [("type", .str "receive_file"), ("payload", .str ticket)]
  | .prepareFile absPath =>
      .obj [("type", .str "prepare_file"), ("payload", .str absPath)]

end WebSocketMessage

/-- First-match field lookup in a JSON object's association list. -/
def getField (fields : List (String × Json)) (k : String) : Option Json :=
  match fields with
  | [] => none
  | (k', v) :: rest => if k' = k then some v else getField rest k

/-- Decode a JSON array whose elements must all be strings. -/
def decodeStrings : List Json → Except String (List String)
  | [] => .ok []
  | .str s :: rest =>
      match decodeStrings rest with
      | .ok l => .ok (s :: l)
      | .error e => .error e
  | _ :: _ => .error "invalid type: expected a string"

/-- Deserialization of a JSON value into a WebSocketMessage, following
serde's adjacently tagged decoding for the enum in message.rs: the value
must be an object whose "type" field names a known snake_case variant; the
"payload" field is then decoded according to that variant's payload shape.
Any other shape yields an error, as serde_json::from_str does. -/
def decode (j : Json) : Except String WebSocketMessage :=
  match j with
  | .obj fields =>
    match getField fields "type" with
    | some (.str tag) =>
      if tag = "register" then
        match getField fields "payload" with
        | some (.obj p) =>
          match getField p "nickname" with
          | some (.str n) => .ok (.register n)
          | some _ => .error "invalid type: expected a string"
          | none => .error "missing field nickname"
        | some _ => .error "invalid type: expected payload object"
        | none => .error "missing field payload"
      else if tag = "disconnect_user" then
        match getField fields "payload" with
        | some (.str s) => .ok (.disconnectUser s)
        | some _ => .error "invalid type: expected a string"
        | none => .error "missing field payload"
      else if tag = "register_success" then
        match getField fields "payload" with
        | some .null => .ok .registerSuccess
        | some _ => .error "invalid type: expected null"
        | none => .ok .registerSuccess
      else if tag = "error_deserializing_json" then
        match getField fields "payload" with
        | some (.str s) => .ok (.errorDeserializingJson s)
        | some _ => .error "invalid type: expected a string"
        | none => .error "missing field payload"
      else if tag = "get_active_users_list" then
        match getField fields "payload" with
        | some (.str s) => .ok (.getActiveUsersList s)
        | some _ => .error "invalid type: expected a string"
        | none => .error "missing field payload"
      else if tag = "active_users_list" then
        match getField fields "payload" with
        | some (.arr elems) =>
          match decodeStrings elems with
          | .ok users => .ok (.activeUsersList users)
          | .error e => .error e
        | some _ => .error "invalid type: expected a sequence"
        | none => .error "missing field payload"
      else if tag = "send_file" then
        match getField fields "payload" with
        | some (.str s) => .ok (.sendFile s)
        | some _ => .error "invalid type: expected a string"
        | none => .error "missing field payload"
      else if tag = "receive_file" then
        match getField fields "payload" with
        | some (.str s) => .ok (.receiveFile s)
        | some _ => .error "invalid type: expected a string"
        | none => .error "missing field payload"
      else if tag = "prepare_file" then
        match getField fields "payload" with
        | some (.str s) => .ok (.prepareFile s)
        | some _ => .error "invalid type: expected a string"
        | none => .error "missing field payload"
      else .error ("unknown variant " ++ tag)
    | some _ => .error "invalid type for tag field"
    | none => .error "missing field type"
  | _ => .error "invalid type: expected an object"

/-- The raw text payload of an inbound websocket text frame: either a
well-formed JSON document or malformed bytes that serde_json rejects at the
lexical level. -/
inductive RawText where
  | jsonText (j : Json) : RawText
  | malformed (s : String) : RawText

/-- The composite serde_json::from_str on a text payload: lexing then
structural decoding; malformed input fails at the lexer. -/
def decodeText : RawText → Except String WebSocketMessage
  | .jsonText j => decode j
  | .malformed _ => .error "expected value"

/-- Toast kinds used by the GUI notification surface (egui_toast). -/
inductive ToastKind where
  | success : ToastKind
  | error : ToastKind
deriving DecidableEq

/-- The typed events flowing over the Event Bus, from
src/mini-dropbox-gui/src/events.rs.  FatalError carries the formatted
anyhow error chain as a string. -/
inductive AppEvent where
  | readyToPublishUser : AppEvent
  | allSystemsGo : AppEvent
  | registerSuccess : AppEvent
  | updateActiveUsersList (users : List String) : AppEvent
  | fatalError (e : String) : AppEvent
deriving DecidableEq

/-- The session states, from src/mini-dropbox-gui/src/state.rs.  OnStartup
holds the half-consumed inbound command receiver handed to the bootstrap
task; the receiver is modelled by the list of messages it will yield. -/
inductive AppState where
  | onStartup (fromUi : Option (List WebSocketMessage)) : AppState
  | connecting : AppState
  | ready : AppState
  | webSocketReady : AppState
  | irohReady : AppState
  | publishUser : AppState
  | waitForRegisterConfirmation : AppState
deriving DecidableEq

/-- The application model: the fields of struct MyApp in main.rs that the
session logic reads or writes (the channel endpoints tx/rx/to_ws are
modelled separately as explicit queues; toasts records the user-visible
notifications shown so far). -/
structure MyApp where
  app_state : AppState
  nickname : String
  active_users_list : List String
  toasts : List (String × ToastKind)
  files : List String
  selected_file : String
deriving DecidableEq

/-- One iteration of the event-handler loop in MyApp::update
(main.rs lines 96-109): the match on a single AppEvent drained from rx. -/
def handleEvent (app : MyApp) (e : AppEvent) : MyApp :=
  match e with
  | .readyToPublishUser => { app with app_state := .publishUser }
  | .allSystemsGo => { app with app_state := .ready }
  | .registerSuccess =>
      { app with toasts := app.toasts ++ [("Register success!", .success)],
                 app_state := .ready }
  | .updateActiveUsersList users => { app with active_users_list := users }
  | .fatalError e => { app with toasts := app.toasts ++ [(e, .error)] }

/-- The while-let drain of the Event Bus: events are processed one at a
time in arrival order (main.rs line 95). -/
def handleEvents (app : MyApp) (events : List AppEvent) : MyApp :=
  events.foldl handleEvent app

/-- An inbound websocket frame (tungstenite Message): a text frame carrying
raw bytes, or a non-text frame (Binary, Ping, Pong, Close, Frame). -/
inductive WsFrame where
  | text (raw : RawText) : WsFrame
  | binary (bytes : List Nat) : WsFrame
  | ping : WsFrame
  | pong : WsFrame
  | close : WsFrame

/-- The reader-side frame processor, from process_message in main.rs
(lines 328-364), modelled by its observable effects: the AppEvents it sends
onto the Event Bus and the lines it prints to stdout.  Text frames are
parsed with serde_json; of the successfully decoded messages only
RegisterSuccess, ErrorDeserializingJson and ActiveUsersList produce events,
ReceiveFile only prints the ticket, and every other decoded tag falls into
the catch-all arm and produces nothing; parse failures produce a FatalError
event; non-text frames fall into the outer catch-all arm and produce
nothing.  The function always returns ControlFlow::Continue, so the
returned control flow is omitted. -/
def process_message : WsFrame → List AppEvent × List String
  | .text raw =>
    match decodeText raw with
    | .ok websocket_msg =>
      match websocket_msg with
      | .registerSuccess => ([.registerSuccess], [])
      | .errorDeserializingJson e =>
          ([.fatalError ("Server JSON error: " ++ e)], [])
      | .activeUsersList active_users_list =>
          ([.updateActiveUsersList active_users_list], [])
      | .receiveFile ticket => ([], ["ticket is " ++ ticket])
      | _ => ([], [])
    | .error e => ([.fatalError ("Message parse failed: " ++ e)], [])
  | _ => ([], [])

/-- The error returned by tokio's bounded mpsc Sender::try_send when the
channel's backlog is at capacity (TrySendError::Full). -/
inductive TrySendError where
  | full : TrySendError
deriving DecidableEq

/-- tokio mpsc bounded-channel try_send: the channel is a FIFO backlog with
fixed capacity; when the backlog is below capacity the message is appended
and the call succeeds, when the backlog is at capacity the call returns
TrySendError::Full immediately, in either case without suspending. -/
def trySend (cap : Nat) (q : List α) (x : α) : Except TrySendError (List α) :=
  if q.length < cap then .ok (q ++ [x]) else .error .full

/-- Capacity of both bounded channels created in MyApp::new (main.rs
lines 56-57): mpsc::channel(100). -/
def channelCapacity : Nat := 100

/-- The AppState::PublishUser arm of MyApp::update (main.rs lines 230-241):
try_send a Register message with the current nickname onto the outbound
command queue; on failure, push a FatalError event (anyhow context
"Register send failed" wrapping TrySendError::Full, whose alternate
formatting is "no available capacity"); in both cases move to
WaitForRegisterConfirmation.  Returns the updated app, the updated
outbound queue, and the events emitted onto the Event Bus. -/
def publishUserStep (app : MyApp) (toWs : List WebSocketMessage) :
    MyApp × List WebSocketMessage × List AppEvent :=
  match trySend channelCapacity toWs (.register app.nickname) with
  | .ok q' => ({ app with app_state := .waitForRegisterConfirmation }, q', [])
  | .error _ =>
      ({ app with app_state := .waitForRegisterConfirmation }, toWs,
       [.fatalError "Register send failed: no available capacity"])

/-- The bootstrap join in the spawned task of the AppState::OnStartup arm
(main.rs lines 139-215): tokio::try_join! of the websocket connect and the
Iroh node initialization.  Each subsystem's outcome is its anyhow Result,
already carrying its context string ("WebSocket connection failed" or
"Iroh node initialization failed").  If both succeed, the reader and writer
tasks are spawned and a ReadyToPublishUser event is sent; if either fails,
try_join fails fast with that error and a FatalError event is sent.  (The
internals of IrohNode::new are in iroh_node.rs, which is not part of the
given sources; only its Result outcome matters here, which the join treats
abstractly.) -/
def bootstrapEvents (ws iroh : Except String Unit) : List AppEvent :=
  match ws, iroh with
  | .ok _, .ok _ => [.readyToPublishUser]
  | .error e, _ => [.fatalError e]
  | .ok _, .error e => [.fatalError e]

/-- The synchronous part of the AppState::OnStartup arm of MyApp::update
(main.rs lines 113-220): take the receiver, generate a nickname, spawn the
bootstrap task, and set the state to Connecting. -/
def onStartupStep (app : MyApp) (generatedNickname : String) : MyApp :=
  { app with nickname := generatedNickname, app_state := .connecting }

/-- A concrete application value used to instantiate closed statements:
the state is as given, the generated nickname is "guest42", and all other
fields are the initial values from MyApp::new. -/
def mkApp (s : AppState) : MyApp :=
  { app_state := s, nickname := "guest42", active_users_list := [],
    toasts := [], files := [], selected_file := "" }

/-- A backlog holding exactly channelCapacity messages: the outbound
command queue at capacity. -/
def fullQueue : List WebSocketMessage :=
  List.replicate channelCapacity .registerSuccess

theorem decodeStrings_map_str (l : List String) :
    decodeStrings (l.map Json.str) = .ok l := by
  induction l with
  | nil => rfl
  | cons s rest ih => rw [List.map_cons]; simp [decodeStrings, ih]

/-- C2: for every protocol message, decoding the JSON produced by encoding
it yields exactly the original message (round-trip law for every tag,
including all eight tags of the section-6 wire table). -/
theorem C2_encode_decode_roundtrip (m : WebSocketMessage) :
    decode m.encode = .ok m := by
  cases m <;> simp [WebSocketMessage.encode, decode, getField, decodeStrings_map_str]

/-- C4: processing an ActiveUsersList message fully replaces the roster
with the received list, regardless of the previous contents; in particular
after receiving the list [a, b, c] and then the list [d], the roster is
exactly [d]. -/
theorem C4_roster_full_replacement (app : MyApp) (next : List String)
    (a b c d : String) :
    (handleEvent app (.updateActiveUsersList next)).active_users_list = next ∧
    (handleEvents app [.updateActiveUsersList [a, b, c],
                       .updateActiveUsersList [d]]).active_users_list = [d] := by
  exact ⟨rfl, rfl⟩

/-- C5: from PublishUser, the update loop enqueues Register with the
current nickname and moves to WaitForRegisterConfirmation; from there a
RegisterSuccess event moves the session to Ready. -/
theorem C5_register_then_ack (app : MyApp) (q : List WebSocketMessage)
    (h : q.length < channelCapacity) :
    (publishUserStep app q).2.1 = q ++ [.register app.nickname] ∧
    (publishUserStep app q).1.app_state = .waitForRegisterConfirmation ∧
    (handleEvent (publishUserStep app q).1 .registerSuccess).app_state
      = .ready := by
  simp [publishUserStep, trySend, h, handleEvent]

theorem C5_witness :
    ([] : List WebSocketMessage).length < channelCapacity ∧
    ((publishUserStep (mkApp .publishUser) []).2.1
        = [] ++ [.register (mkApp .publishUser).nickname] ∧
     (publishUserStep (mkApp .publishUser) []).1.app_state
        = .waitForRegisterConfirmation ∧
     (handleEvent (publishUserStep (mkApp .publishUser) []).1
        .registerSuccess).app_state = .ready) :=
  ⟨by decide, C5_register_then_ack (mkApp .publishUser) [] (by decide)⟩

/-- C6: a RegisterSuccess event received while the session is already
Ready leaves the state Ready (the handler re-assigns Ready, so the
duplicate acknowledgement never moves the session out of Ready). -/
theorem C6_duplicate_ack_noop (app : MyApp) (h : app.app_state = .ready) :
    (handleEvent app .registerSuccess).app_state = app.app_state ∧
    (handleEvent app .registerSuccess).app_state = .ready := by
  simp [handleEvent, h]

theorem C6_witness :
    (mkApp .ready).app_state = AppState.ready ∧
    ((handleEvent (mkApp .ready) .registerSuccess).app_state
        = (mkApp .ready).app_state ∧
     (handleEvent (mkApp .ready) .registerSuccess).app_state
        = AppState.ready) :=
  ⟨rfl, C6_duplicate_ack_noop (mkApp .ready) rfl⟩

/-- C10: the RegisterSuccess handler assigns Ready unconditionally, from
every current state; in particular a RegisterSuccess arriving while the
state is still Connecting moves the session directly to Ready. -/
theorem C10_register_success_unconditional (app : MyApp) :
    (handleEvent app .registerSuccess).app_state = .ready ∧
    (handleEvent { app with app_state := .connecting }
        .registerSuccess).app_state = .ready :=
  ⟨rfl, rfl⟩

/-- C8: decode is a total function into Except: on any input that does not
decode to a known protocol message it returns a decode error value; there
is no panicking path. -/
theorem C8_malformed_yields_error (r : RawText)
    (h : ¬ ∃ m, decodeText r = .ok m) :
    ∃ e, decodeText r = .error e := by
  cases hd : decodeText r with
  | ok m => exact absurd ⟨m, hd⟩ h
  | error e => exact ⟨e, rfl⟩

theorem C8_witness :
    (¬ ∃ m, decodeText (.jsonText (.obj [])) = .ok m) ∧
    ∃ e, decodeText (.jsonText (.obj [])) = .error e :=
  ⟨by simp [decodeText, decode, getField],
   C8_malformed_yields_error _ (by simp [decodeText, decode, getField])⟩

/-- C9: a text frame that fails to decode produces exactly one FatalError
event, and handling that event appends an error toast and leaves the
session state unchanged. -/
theorem C9_decode_failure_preserves_state (raw : RawText) (e : String)
    (app : MyApp) (h : decodeText raw = .error e) :
    (process_message (.text raw)).1
      = [.fatalError ("Message parse failed: " ++ e)] ∧
    (handleEvents app (process_message (.text raw)).1).app_state
      = app.app_state ∧
    (handleEvents app (process_message (.text raw)).1).toasts
      = app.toasts ++ [("Message parse failed: " ++ e, ToastKind.error)] := by
  simp [process_message, h, handleEvents, handleEvent]

theorem C9_witness :
    decodeText (.malformed "oops") = .error "expected value" ∧
    ((process_message (.text (.malformed "oops"))).1
        = [.fatalError ("Message parse failed: " ++ "expected value")] ∧
     (handleEvents (mkApp .ready)
        (process_message (.text (.malformed "oops"))).1).app_state
        = (mkApp .ready).app_state ∧
     (handleEvents (mkApp .ready)
        (process_message (.text (.malformed "oops"))).1).toasts
        = (mkApp .ready).toasts
            ++ [("Message parse failed: " ++ "expected value",
                 ToastKind.error)]) :=
  ⟨rfl, C9_decode_failure_preserves_state (.malformed "oops")
    "expected value" (mkApp .ready) rfl⟩

/-- C7: when the outbound command queue holds its full backlog capacity,
try_send returns TrySendError::Full immediately (the function is total and
never suspends), the PublishUser arm turns that failure into a FatalError
event without enqueueing the command, and handling that event shows an
error toast while leaving the session state unchanged (the session is not
terminated). -/
theorem C7_queue_full_fail_fast (q : List WebSocketMessage) (app : MyApp)
    (h : q.length = channelCapacity) :
    trySend channelCapacity q (.register app.nickname) = .error .full ∧
    (publishUserStep app q).2.2
      = [.fatalError "Register send failed: no available capacity"] ∧
    (publishUserStep app q).2.1 = q ∧
    (∀ a : MyApp,
      (handleEvents a (publishUserStep app q).2.2).app_state = a.app_state ∧
      (handleEvents a (publishUserStep app q).2.2).toasts
        = a.toasts ++ [("Register send failed: no available capacity",
                        ToastKind.error)]) := by
  refine ⟨?_, ?_, ?_, ?_⟩
  · simp [trySend, h]
  · simp [publishUserStep, trySend, h]
  · simp [publishUserStep, trySend, h]
  · intro a
    constructor <;> simp [publishUserStep, trySend, h, handleEvents, handleEvent]

theorem C7_witness :
    fullQueue.length = channelCapacity ∧
    (trySend channelCapacity fullQueue
        (.register (mkApp .publishUser).nickname) = .error .full ∧
     (publishUserStep (mkApp .publishUser) fullQueue).2.2
        = [.fatalError "Register send failed: no available capacity"] ∧
     (publishUserStep (mkApp .publishUser) fullQueue).2.1 = fullQueue ∧
     (∀ a : MyApp,
       (handleEvents a
          (publishUserStep (mkApp .publishUser) fullQueue).2.2).app_state
          = a.app_state ∧
       (handleEvents a
          (publishUserStep (mkApp .publishUser) fullQueue).2.2).toasts
          = a.toasts ++ [("Register send failed: no available capacity",
                          ToastKind.error)])) :=
  ⟨by simp [fullQueue],
   C7_queue_full_fail_fast fullQueue (mkApp .publishUser)
     (by simp [fullQueue])⟩

/-- C1 counterexample: with the websocket connect failing and the Iroh
initialization succeeding, a FatalError event is emitted, but the session
state after handling it is still Connecting — the state type has no Failed
variant and the FatalError handler does not change the state — and the
"failure" is not absorbing: a subsequent RegisterSuccess event still moves
the session to Ready, contradicting that the resulting state is a Failed
state that is never Ready. -/
theorem C1_counterexample :
    bootstrapEvents (.error "WebSocket connection failed") (.ok ())
      = [.fatalError "WebSocket connection failed"] ∧
    (handleEvents (mkApp .connecting)
      (bootstrapEvents (.error "WebSocket connection failed")
        (.ok ()))).app_state = AppState.connecting ∧
    (handleEvent
      (handleEvents (mkApp .connecting)
        (bootstrapEvents (.error "WebSocket connection failed") (.ok ())))
      .registerSuccess).app_state = AppState.ready := by
  refine ⟨rfl, rfl, rfl⟩

/-- C1 (amended): if exactly one of the two bootstrap subsystems fails,
try_join fails fast, a FatalError event is emitted, and after handling it
the session state remains Connecting — in particular it is not Ready (no
partial bootstrap success), but no Failed state exists or is entered. -/
theorem C1_partial_bootstrap (ws iroh : Except String Unit) (app : MyApp)
    (hst : app.app_state = .connecting)
    (h : (∃ e, ws = .error e ∧ iroh = .ok ())
          ∨ (ws = .ok () ∧ ∃ e, iroh = .error e)) :
    (∃ e, bootstrapEvents ws iroh = [.fatalError e]) ∧
    (handleEvents app (bootstrapEvents ws iroh)).app_state
      = .connecting ∧
    (handleEvents app (bootstrapEvents ws iroh)).app_state
      ≠ .ready := by
  obtain ⟨e, hw, hi⟩ | ⟨hw, e, hi⟩ := h <;> subst hw <;> subst hi <;>
    exact ⟨⟨e, rfl⟩, by simp [bootstrapEvents, handleEvents, handleEvent, hst],
           by simp [bootstrapEvents, handleEvents, handleEvent, hst]⟩

theorem C1_witness :
    (mkApp .connecting).app_state = AppState.connecting ∧
    ((∃ e, bootstrapEvents (.error "WebSocket connection failed") (.ok ())
        = [.fatalError e]) ∧
     (handleEvents (mkApp .connecting)
        (bootstrapEvents (.error "WebSocket connection failed")
          (.ok ()))).app_state = .connecting ∧
     (handleEvents (mkApp .connecting)
        (bootstrapEvents (.error "WebSocket connection failed")
          (.ok ()))).app_state ≠ .ready) :=
  ⟨rfl, C1_partial_bootstrap _ _ (mkApp .connecting) rfl
    (Or.inl ⟨"WebSocket connection failed", rfl, rfl⟩)⟩

/-- C3 counterexample: a binary (non-text) frame produces no event and no
output, and a text frame that validly decodes to a Register message (a
known tag outside the handled set) also produces no event and no output —
both inbound frames are silently dropped. -/
theorem C3_counterexample :
    process_message (WsFrame.binary [1, 2, 3]) = ([], []) ∧
    process_message (WsFrame.text (.jsonText
      (WebSocketMessage.encode (.register "guest42")))) = ([], []) :=
  ⟨rfl, rfl⟩

/-- C3 (amended): a text frame that fails to decode yields an explicit
decode-error FatalError event; decoded RegisterSuccess,
ErrorDeserializingJson and ActiveUsersList messages are acted upon through
events; but a decoded ReceiveFile only prints the ticket to stdout, other
known tags such as Register produce no effect at all, and non-text frames
produce no effect at all — the latter are silently dropped. -/
theorem C3_frame_effects (raw : RawText) (b : List Nat) :
    (∀ e, decodeText raw = .error e →
      process_message (.text raw)
        = ([.fatalError ("Message parse failed: " ++ e)], [])) ∧
    (decodeText raw = .ok .registerSuccess →
      process_message (.text raw) = ([.registerSuccess], [])) ∧
    (∀ l, decodeText raw = .ok (.activeUsersList l) →
      process_message (.text raw) = ([.updateActiveUsersList l], [])) ∧
    (∀ s, decodeText raw = .ok (.errorDeserializingJson s) →
      process_message (.text raw)
        = ([.fatalError ("Server JSON error: " ++ s)], [])) ∧
    (∀ t, decodeText raw = .ok (.receiveFile t) →
      process_message (.text raw) = ([], ["ticket is " ++ t])) ∧
    (∀ n, decodeText raw = .ok (.register n) →
      process_message (.text raw) = ([], [])) ∧
    process_message (.binary b) = ([], []) := by
  refine ⟨fun e h => ?_, fun h => ?_, fun l h => ?_, fun s h => ?_,
          fun t h => ?_, fun n h => ?_, rfl⟩ <;>
    simp [process_message, h]

theorem C3_witness :
    decodeText (.malformed "oops") = .error "expected value" ∧
    process_message (.text (.malformed "oops"))
      = ([.fatalError ("Message parse failed: " ++ "expected value")], []) ∧
    process_message (WsFrame.binary []) = ([], []) :=
  ⟨rfl,
   (C3_frame_effects (.malformed "oops") []).1 "expected value" rfl,
   (C3_frame_effects (.malformed "oops") []).2.2.2.2.2.2⟩
